import Mathlib

/-!
Verification development for the Echo Forge-AI Integrity repository
(`src/verification/core_verifier.py`, `src/dialects/html/processor.py`).

The Python code is shallowly embedded: parsed JSON documents become an
inductive `JsonVal`, manifest files carry their path, raw bytes and the
result of `json.load`, the verifier's mutable `verification_results`
list is threaded as explicit state, and code paths that raise become
`Except`.  Cryptographic digests from `hashlib` (library code, not part
of this repository) are modelled by a deterministic function of the
byte stream that yields a 64-character hex string; the development only
relies on a digest being a deterministic, byte-stream-determined,
non-empty string, which is all the verified properties use.
-/

namespace EchoForge

/-- JSON values as produced by Python's `json.load`.  Numbers are
modelled as integers (no claim depends on float behaviour). -/
inductive JsonVal where
  | null : JsonVal
  | bool : Bool → JsonVal
  | num : Int → JsonVal
  | str : String → JsonVal
  | arr : List JsonVal → JsonVal
  | obj : List (String × JsonVal) → JsonVal

/-- A parsed manifest record: a Python dict, i.e. an association list
whose keys are unique in any dict actually produced by `json.load`. -/
abbrev Record := List (String × JsonVal)

/-- Python `json.JSONDecodeError`: message plus position information. -/
structure ParseErr where
  msg : String
  line : Nat
  col : Nat
  pos : Nat
deriving DecidableEq

/-- `str(e)` for a `json.JSONDecodeError` — CPython formats it as
`"msg: line L column C (char P)"`. -/
def jsonDecodeErrorStr (e : ParseErr) : String :=
  e.msg ++ ": line " ++ toString e.line ++ " column " ++ toString e.col
    ++ " (char " ++ toString e.pos ++ ")"

/-- A manifest file on disk: its path, its raw bytes, and the result of
`json.load` on its contents. -/
structure ManifestFile where
  path : String
  bytes : List Nat
  parsed : Except ParseErr Record

/-! ### Serialization: `json.dumps`

`json.dumps(data)` serializes with default separators `", "` and `": "`,
emitting a dict's items in insertion order; with `sort_keys=True` each
dict's items are emitted in ascending key order instead (dict keys are
unique, so this equals listing the sorted keys, each with its value).
String escaping is not modelled — no claim depends on it. -/

/-- Python `str(...)`-style quoting used by `json.dumps` (escaping not
modelled). `\x7b`/`\x7d` are the literal brace characters. -/
def quoteStr (s : String) : String := "\"" ++ s ++ "\""

mutual

/-- `json.dumps(v)` with default (insertion-order) key order. -/
def plainDumps : JsonVal → String
  | .null => "null"
  | .bool true => "true"
  | .bool false => "false"
  | .num n => toString n
  | .str s => quoteStr s
  | .arr xs => "[" ++ String.intercalate ", " (plainDumpsList xs) ++ "]"
  | .obj kvs => "\x7b" ++ String.intercalate ", " (plainDumpsPairs kvs) ++ "\x7d"

def plainDumpsList : List JsonVal → List String
  | [] => []
  | x :: xs => plainDumps x :: plainDumpsList xs

def plainDumpsPairs : List (String × JsonVal) → List String
  | [] => []
  | (k, v) :: rest => (quoteStr k ++ ": " ++ plainDumps v) :: plainDumpsPairs rest

end

/-- The items of a dict in ascending key order, as `sort_keys=True`
emits them: the sorted key list, each key paired with its value. -/
def sorted_items (kvs : List (String × JsonVal)) : List (String × JsonVal) :=
  ((kvs.map Prod.fst).insertionSort (· ≤ ·)).map
    (fun k => (k, (kvs.lookup k).getD .null))

mutual

/-- Key-order canonicalization performed by `json.dumps(·, sort_keys=True)`:
every object's items are recursively re-serialized in ascending key
order. `dumps(v, sort_keys=True)` is modelled as `plainDumps (canon v)`. -/
def canon : JsonVal → JsonVal
  | .null => .null
  | .bool b => .bool b
  | .num n => .num n
  | .str s => .str s
  | .arr xs => .arr (canonList xs)
  | .obj kvs => .obj (sorted_items (canonPairs kvs))

def canonList : List JsonVal → List JsonVal
  | [] => []
  | x :: xs => canon x :: canonList xs

def canonPairs : List (String × JsonVal) → List (String × JsonVal)
  | [] => []
  | (k, v) :: rest => (k, canon v) :: canonPairs rest

end

/-- `json.dumps(v, sort_keys=True)`. -/
def dumpsSorted (v : JsonVal) : String := plainDumps (canon v)

/-! ### Digest model (`hashlib`)

`hashlib` is library code, not part of this repository.  A digest is
modelled as a deterministic function of the algorithm name and the byte
stream, rendered as a 64-character lowercase hex string.  The claims
rely only on determinism, dependence solely on the bytes, and the
digest being a fixed non-empty hex string. -/

/-- Accumulating byte fold standing in for a cryptographic compression
function; arithmetic is over `Nat` reduced mod `2 ^ 256`. -/
def hashFold (seed : Nat) (bs : List Nat) : Nat :=
  bs.foldl (fun h b => (h * 131 + b) % (2 ^ 256)) (seed % (2 ^ 256))

/-- Lowercase hex digit. -/
def hexChar (n : Nat) : Char :=
  if n < 10 then Char.ofNat (48 + n) else Char.ofNat (87 + n)

/-- Big-endian fixed-width hex rendering. -/
def hexOfNat : Nat → Nat → List Char
  | 0, _ => []
  | w + 1, v => hexOfNat w (v / 16) ++ [hexChar (v % 16)]

/-- The bytes of a string.  Manifest serializations are ASCII, where
codepoints coincide with UTF-8 bytes; byte-level fidelity beyond that
is irrelevant to the digest model. -/
def strBytes (s : String) : List Nat := s.toList.map Char.toNat

/-- Hex digest of a byte stream under a named algorithm. -/
def algoDigest (algorithm : String) (bs : List Nat) : String :=
  String.mk (hexOfNat 64 (hashFold (hashFold 5381 (strBytes algorithm)) bs))

/-- The default `sha256` hex digest of a byte stream. -/
def sha256Hex (bs : List Nat) : String := algoDigest "sha256" bs

/-! ### Checksum Service (`core_verifier.py` lines 33, 47-65) -/

/-- `EchoForgeVerifier.SUPPORTED_HASH_ALGORITHMS`. -/
def SUPPORTED_HASH_ALGORITHMS : List String := ["sha256", "md5", "sha1"]

/-- The algorithms `hashlib` guarantees as module attributes: for these
`getattr(hashlib, algorithm)` succeeds; for any other name it raises
`AttributeError`. -/
def hashlib_algorithms : List String :=
  ["md5", "sha1", "sha224", "sha256", "sha384", "sha512",
   "blake2b", "blake2s", "sha3_224", "sha3_256", "sha3_384", "sha3_512",
   "shake_128", "shake_256"]

/-- Failures of the checksum operations. -/
inductive ChecksumError where
  | unsupportedAlgorithm : String → ChecksumError
  | fileNotFound : String → ChecksumError
  | attributeError : String → ChecksumError
deriving DecidableEq

/-- `generate_checksum` (lines 47-54): rejects algorithms outside
`SUPPORTED_HASH_ALGORITHMS` with `ValueError`, else hashes the UTF-8
encoding of the string. -/
def generate_checksum (data : String) (algorithm : String) :
    Except ChecksumError String :=
  if algorithm ∈ SUPPORTED_HASH_ALGORITHMS then
    .ok (algoDigest algorithm (strBytes data))
  else
    .error (.unsupportedAlgorithm algorithm)

/-- A filesystem: paths mapped to file bytes. -/
abbrev FileSystem := List (String × List Nat)

/-- `generate_file_checksum` (lines 56-65): checks existence first
(raising `FileNotFoundError` otherwise), then calls
`getattr(hashlib, algorithm)` — with **no** check against
`SUPPORTED_HASH_ALGORITHMS` — and hashes the file in chunks. -/
def generate_file_checksum (fs : FileSystem) (file_path : String)
    (algorithm : String) : Except ChecksumError String :=
  match fs.lookup file_path with
  | none => .error (.fileNotFound file_path)
  | some bytes =>
      if algorithm ∈ hashlib_algorithms then .ok (algoDigest algorithm bytes)
      else .error (.attributeError algorithm)

/-! ### Verification Orchestrator (`core_verifier.py` lines 32, 67-143)

`datetime.utcnow().isoformat()` is threaded as an explicit `now`
argument; `self.verification_results` as explicit state.  Files handed
to the verifier exist (the batch discovers them via `glob`), so the
`FileNotFoundError` branch of `verify_cve_manifest` is not exercised
by any claim and the file's bytes and parse result are carried on the
`ManifestFile` itself. -/

/-- `EchoForgeVerifier.LINEAGE_ID`. -/
def LINEAGE_ID : String := "RepoReportEcho_092425"

/-- The fixed `required_fields` list of `verify_cve_manifest` (line 82). -/
def required_fields : List String :=
  ["cve_id", "description", "severity", "published_date"]

/-- One verification outcome dict (lines 92-102 / 129-140).  The
`error` key is present (`some`) exactly on the synthesized batch error
outcome. -/
structure Outcome where
  manifest_file : String
  cve_id : JsonVal
  severity : JsonVal
  file_checksum : String
  content_checksum : String
  missing_fields : List String
  valid : Bool
  error : Option String
  timestamp : String
  lineage_id : String

/-- The pure core of `verify_cve_manifest` (lines 67-107): parse
failure propagates as the raised `JSONDecodeError`; otherwise the
outcome dict is assembled (checksums via the default `sha256`, content
checksum over `json.dumps(manifest_data, sort_keys=True)`). -/
def verify_result (now : String) (f : ManifestFile) : Except ParseErr Outcome :=
  match f.parsed with
  | .error e => .error e
  | .ok manifest_data =>
      let missing_fields := required_fields.filter
        (fun field => !((manifest_data.map Prod.fst).contains field))
      let file_checksum := sha256Hex f.bytes
      let content_checksum := sha256Hex (strBytes (dumpsSorted (.obj manifest_data)))
      .ok { manifest_file := f.path
          , cve_id := (manifest_data.lookup "cve_id").getD (.str "UNKNOWN")
          , severity := (manifest_data.lookup "severity").getD (.str "UNKNOWN")
          , file_checksum := file_checksum
          , content_checksum := content_checksum
          , missing_fields := missing_fields
          , valid := missing_fields.length == 0
          , error := none
          , timestamp := now
          , lineage_id := LINEAGE_ID }

/-- `verify_cve_manifest` with the mutable `self.verification_results`
threaded explicitly: on success the outcome is appended (line 104); on
a raise the state is unchanged. -/
def verify_cve_manifest (now : String) (st : List Outcome) (f : ManifestFile) :
    Except ParseErr Outcome × List Outcome :=
  match verify_result now f with
  | .ok r => (.ok r, st ++ [r])
  | .error e => (.error e, st)

/-- The synthesized `error_result` dict of `batch_verify_manifests`
(lines 129-140), with `str(e)` already rendered. -/
def error_result (now : String) (path : String) (e : String) : Outcome :=
  { manifest_file := path
  , cve_id := .str "ERROR"
  , severity := .str "ERROR"
  , file_checksum := ""
  , content_checksum := ""
  , missing_fields := []
  , valid := false
  , error := some e
  , timestamp := now
  , lineage_id := LINEAGE_ID }

/-- The `for manifest_file in manifest_files` loop of
`batch_verify_manifests` (lines 121-142), accumulating the returned
`results` and the internal `verification_results` state. -/
def batchGo (now : String) :
    List ManifestFile → List Outcome → List Outcome → List Outcome × List Outcome
  | [], acc, st => (acc, st)
  | f :: rest, acc, st =>
      match verify_result now f with
      | .ok r => batchGo now rest (acc ++ [r]) (st ++ [r])
      | .error e =>
          batchGo now rest (acc ++ [error_result now f.path (jsonDecodeErrorStr e)]) st

/-- `batch_verify_manifests` (lines 109-143): `none` models a
nonexistent manifest directory (early return of `[]`, state untouched);
`some files` is the glob result.  Returns (returned results, new
internal `verification_results`). -/
def batch_verify_manifests (now : String) (st : List Outcome) :
    Option (List ManifestFile) → List Outcome × List Outcome
  | none => ([], st)
  | some files => batchGo now files [] st

/-- The single outcome the batch produces for one file: the verified
outcome on success, the synthesized error outcome on a raise. -/
def file_outcome (now : String) (f : ManifestFile) : Outcome :=
  match verify_result now f with
  | .ok r => r
  | .error e => error_result now f.path (jsonDecodeErrorStr e)

/-! ### Report Renderers (`core_verifier.py` lines 145-371)

Each renderer is embedded as the structured document it computes: the
aggregate statistics and the per-outcome detail rows, i.e. exactly the
data the f-string templates interpolate.  Surrounding literal template
text carries no information about the outcome list and is omitted. -/

/-- Python `str(value)` as used in the f-string cells.  For a string
value this is the raw string; for other values the cosmetic differences
between `str` and JSON rendering are irrelevant to every claim. -/
def pyStr : JsonVal → String
  | .str s => s
  | v => plainDumps v

/-- The Issues cell: `", ".join(result.get('missing_fields', [])) or "None"`
(an empty join is falsy, so it falls back to `"None"`). -/
def issues_cell (r : Outcome) : String :=
  let j := String.intercalate ", " r.missing_fields
  if j = "" then "None" else j

/-- The checksum cell:
`result.get('file_checksum','')[:16] + "..." if result.get('file_checksum') else "N/A"`
(an empty string is falsy). -/
def checksum_cell (r : Outcome) : String :=
  if r.file_checksum = "" then "N/A" else r.file_checksum.take 16 ++ "..."

/-- The status cell. -/
def status_cell (r : Outcome) : String :=
  if r.valid then "✅ VALID" else "❌ INVALID"

/-- One detail row of the markdown table (lines 210-215). -/
structure ReportRow where
  cve_id : String
  severity : String
  status : String
  checksum : String
  issues : String
deriving DecidableEq

/-- The markdown detail row for one outcome (lines 210-215). -/
def report_row (r : Outcome) : ReportRow :=
  { cve_id := pyStr r.cve_id
  , severity := pyStr r.severity
  , status := status_cell r
  , checksum := checksum_cell r
  , issues := issues_cell r }

/-- The data interpolated into the markdown report template. -/
structure MarkdownReport where
  total : Nat
  valid_count : Nat
  invalid_count : Nat
  success_rate : ℚ
  rows : List ReportRow
deriving DecidableEq

/-- `generate_markdown_report` (lines 177-247).  The template line
`` - **Success Rate**: {(valid_count/len(results)*100):.1f}% if results else 0 ``
evaluates `valid_count/len(results)*100` unconditionally — the
`if results else 0` sits outside the replacement field, as literal
report text — so an empty outcome list raises `ZeroDivisionError`. -/
def generate_markdown_report (results : List Outcome) :
    Except String MarkdownReport :=
  let valid_count := (results.filter (fun r => r.valid)).length
  let invalid_count := results.length - valid_count
  if results.length = 0 then .error "ZeroDivisionError: division by zero"
  else .ok
    { total := results.length
    , valid_count := valid_count
    , invalid_count := invalid_count
    , success_rate := (valid_count : ℚ) / (results.length : ℚ) * 100
    , rows := results.map report_row }

/-- One detail row of the HTML report table (lines 326-341). -/
structure HtmlRow where
  cve_id : String
  severity : String
  status_class : String
  status : String
  checksum : String
  issues : String
  timestamp : String
deriving DecidableEq

/-- The HTML detail row for one outcome (lines 326-341). -/
def html_row (r : Outcome) : HtmlRow :=
  { cve_id := pyStr r.cve_id
  , severity := pyStr r.severity
  , status_class := if r.valid then "valid" else "invalid"
  , status := status_cell r
  , checksum := checksum_cell r
  , issues := issues_cell r
  , timestamp := if r.timestamp = "" then "N/A" else r.timestamp }

/-- The data interpolated into the HTML report template. -/
structure HtmlReport where
  total : Nat
  valid_count : Nat
  invalid_count : Nat
  success_rate : ℚ
  rows : List HtmlRow
deriving DecidableEq

/-- `generate_html_report` (lines 249-371).  Here the guard is a real
conditional expression (line 259):
`success_rate = (valid_count/len(results)*100) if results else 0`. -/
def generate_html_report (results : List Outcome) : HtmlReport :=
  let valid_count := (results.filter (fun r => r.valid)).length
  { total := results.length
  , valid_count := valid_count
  , invalid_count := results.length - valid_count
  , success_rate :=
      if results.length = 0 then 0
      else (valid_count : ℚ) / (results.length : ℚ) * 100
  , rows := results.map html_row }

/-- The key list of an outcome dict, in insertion order: the `error`
key exists exactly on a synthesized batch error outcome, inserted
between `valid` and `timestamp` (lines 92-102, 129-140). -/
def outcome_keys (r : Outcome) : List String :=
  ["manifest_file", "cve_id", "severity", "file_checksum",
   "content_checksum", "missing_fields", "valid"]
  ++ (match r.error with | some _ => ["error"] | none => [])
  ++ ["timestamp", "lineage_id"]

/-- Python `str` of a list of strings: `['a', 'b']` (`\x27` is the
quote character). -/
def pyStrList (xs : List String) : String :=
  "[" ++ String.intercalate ", " (xs.map (fun s => "\x27" ++ s ++ "\x27")) ++ "]"

/-- The CSV cell for one fieldname of one outcome row: `csv.DictWriter`
stringifies present values and writes its `restval` (`None`, rendered
empty) for a fieldname the row lacks — which happens exactly for the
`error` column on a normal outcome. -/
def csv_cell (r : Outcome) (k : String) : String :=
  if k = "manifest_file" then r.manifest_file
  else if k = "cve_id" then pyStr r.cve_id
  else if k = "severity" then pyStr r.severity
  else if k = "file_checksum" then r.file_checksum
  else if k = "content_checksum" then r.content_checksum
  else if k = "missing_fields" then pyStrList r.missing_fields
  else if k = "valid" then (if r.valid then "True" else "False")
  else if k = "error" then (match r.error with | some m => m | none => "")
  else if k = "timestamp" then r.timestamp
  else if k = "lineage_id" then r.lineage_id
  else ""

/-- `csv.DictWriter.writerows` over `results` (line 162): for each row
dict, a key outside `fieldnames` raises
`ValueError("dict contains fields not in fieldnames: ...")`; otherwise
the row's cells are written in fieldname order. -/
def write_rows (fieldnames : List String) :
    List Outcome → Except String (List (List String))
  | [] => .ok []
  | r :: rest =>
      if (outcome_keys r).all (fun k => fieldnames.contains k) then
        match write_rows fieldnames rest with
        | .ok rows => .ok (fieldnames.map (csv_cell r) :: rows)
        | .error e => .error e
      else .error "ValueError: dict contains fields not in fieldnames"

/-- `generate_csv_report` (lines 145-175): an empty result list writes
no rows (line 153); otherwise `fieldnames = results[0].keys()`
(line 157) and every row is written against that header. -/
def generate_csv_report (results : List Outcome) :
    Except String (List (List String)) :=
  match results with
  | [] => .ok []
  | first :: _ => write_rows (outcome_keys first) results

/-! ### HTML dashboard (`dialects/html/processor.py` lines 571-883, 932-1050) -/

/-- Python truthiness of a JSON value. -/
def py_truthy : JsonVal → Bool
  | .null => false
  | .bool b => b
  | .num n => n != 0
  | .str s => s ≠ ""
  | .arr xs => !xs.isEmpty
  | .obj kvs => !kvs.isEmpty

/-- `value.upper()`: succeeds only on a string, raising
`AttributeError` on any other value. -/
def severity_upper : JsonVal → Except String String
  | .str s => .ok s.toUpper
  | _ => .error "AttributeError: object has no attribute upper"

/-- Python `len(value)`: defined for strings, lists and dicts,
`TypeError` otherwise. -/
def py_len : JsonVal → Except String Nat
  | .str s => .ok s.length
  | .arr xs => .ok xs.length
  | .obj kvs => .ok kvs.length
  | _ => .error "TypeError: object has no len"

/-- Python `value[:n]`: slices strings and lists, `TypeError`
otherwise. -/
def py_slice (v : JsonVal) (n : Nat) : Except String JsonVal :=
  match v with
  | .str s => .ok (.str (s.take n))
  | .arr xs => .ok (.arr (xs.take n))
  | _ => .error "TypeError: object is not subscriptable"

/-- A loop that raises on the first failing element, as the Python
`for` loops over `cve_data` do. -/
def mapExcept (g : α → Except String β) : List α → Except String (List β)
  | [] => .ok []
  | x :: xs =>
      match g x with
      | .error e => .error e
      | .ok y =>
          match mapExcept g xs with
          | .error e => .error e
          | .ok ys => .ok (y :: ys)

/-- One CVE detail row of the dashboard's Vulnerabilities table
(lines 695-712). -/
structure CveRow where
  cve_id : String
  severity : String
  cvss_score : String
  pub_date : String
  description : String
deriving DecidableEq

/-- The CVE row computation (lines 696-702): `pub_date` slices the
value when truthy, the description is truncated past 100 with a
trailing ellipsis. -/
def cve_row (cve : Record) : Except String CveRow := do
  let severity ← severity_upper ((cve.lookup "severity").getD (.str "UNKNOWN"))
  let pub_date ←
    if py_truthy ((cve.lookup "published_date").getD .null) then do
      let s ← py_slice ((cve.lookup "published_date").getD (.str "Unknown")) 10
      pure (pyStr s)
    else pure "Unknown"
  let d := (cve.lookup "description").getD (.str "No description available")
  let n ← py_len d
  let description ←
    if n > 100 then
      match d with
      | .str s => pure (s.take 100 ++ "...")
      | _ => Except.error "TypeError: cannot concatenate"
    else pure (pyStr d)
  pure { cve_id := pyStr ((cve.lookup "cve_id").getD (.str "UNKNOWN"))
       , severity := severity
       , cvss_score := pyStr ((cve.lookup "cvss_score").getD (.str "N/A"))
       , pub_date := pub_date
       , description := description }

/-- One verification detail row of the dashboard (lines 743-763). -/
structure DashVRow where
  cve_id : String
  status : String
  severity : String
  checksum : String
  issues : String
  timestamp : String
deriving DecidableEq

/-- The dashboard verification row (lines 744-752). -/
def dash_verification_row (r : Outcome) : DashVRow :=
  { cve_id := pyStr r.cve_id
  , status := status_cell r
  , severity := pyStr r.severity
  , checksum := checksum_cell r
  , issues := issues_cell r
  , timestamp := if r.timestamp = "" then "Unknown" else r.timestamp.take 16 }

/-- `severity_counts[severity] = severity_counts.get(severity, 0) + 1`
on a dict kept in insertion order. -/
def assoc_bump : List (String × Nat) → String → List (String × Nat)
  | [], k => [(k, 1)]
  | (a, n) :: rest, k =>
      if a = k then (a, n + 1) :: rest else (a, n) :: assoc_bump rest k

/-- The data interpolated into the dashboard page. -/
structure Dashboard where
  total_cves : Nat
  total_verifications : Nat
  valid_verifications : Nat
  severity_counts : List (String × Nat)
  success_rate : ℚ
  cve_rows : List CveRow
  verification_rows : List DashVRow
deriving DecidableEq

/-- `generate_dashboard_html` (lines 571-883): aggregate statistics are
computed over the **full** input lists (lines 576-585), while both
detail tables are capped to the first 50 entries (lines 695, 743). -/
def generate_dashboard_html (cve_data : List Record)
    (verification_results : List Outcome) : Except String Dashboard := do
  let total_cves := cve_data.length
  let total_verifications := verification_results.length
  let valid_verifications := (verification_results.filter (fun r => r.valid)).length
  let sevs ← mapExcept
    (fun cve => severity_upper ((cve.lookup "severity").getD (.str "UNKNOWN")))
    cve_data
  let severity_counts := sevs.foldl assoc_bump []
  let success_rate : ℚ :=
    if total_verifications > 0 then
      (valid_verifications : ℚ) / (total_verifications : ℚ) * 100
    else 0
  let cve_rows ← mapExcept cve_row (cve_data.take 50)
  let verification_rows := (verification_results.take 50).map dash_verification_row
  pure { total_cves := total_cves
       , total_verifications := total_verifications
       , valid_verifications := valid_verifications
       , severity_counts := severity_counts
       , success_rate := success_rate
       , cve_rows := cve_rows
       , verification_rows := verification_rows }

/-- The simulated verification result `process_and_generate_dashboard`
fabricates for each loaded CVE record (lines 950-959): `valid` is the
constant `True` ("Simulate successful verification"), the checksum is
over `json.dumps(cve)` **without** `sort_keys`.  The dict lacks the
`manifest_file`, `content_checksum` and `error` keys; the dashboard
never reads them, so they are carried as empty/none here. -/
def simulated_result (now : String) (cve : Record) : Outcome :=
  { manifest_file := ""
  , cve_id := (cve.lookup "cve_id").getD (.str "UNKNOWN")
  , severity := (cve.lookup "severity").getD (.str "UNKNOWN")
  , file_checksum := sha256Hex (strBytes (plainDumps (.obj cve)))
  , content_checksum := ""
  , missing_fields := []
  , valid := true
  , error := none
  , timestamp := now
  , lineage_id := LINEAGE_ID }

/-- `process_and_generate_dashboard` (lines 932-964 up to dashboard
generation): loads the CVE files (files that fail to load are logged
and skipped), fabricates one simulated outcome per loaded record, and
feeds both lists to `generate_dashboard_html`. -/
def process_and_generate_dashboard (now : String)
    (cve_files : List (Except ParseErr Record)) : Except String Dashboard :=
  let cve_data := cve_files.filterMap (fun l => l.toOption)
  let verification_results := cve_data.map (simulated_result now)
  generate_dashboard_html cve_data verification_results

/-! ### Helper lemmas -/

theorem length_append_str (a b : String) :
    (a ++ b).length = a.length + b.length := by
  cases a with
  | mk da =>
      cases b with
      | mk db =>
          show (String.mk (da ++ db)).length = _
          simp [String.length]

theorem jsonDecodeErrorStr_ne_empty (e : ParseErr) : jsonDecodeErrorStr e ≠ "" := by
  intro h
  have hl : (jsonDecodeErrorStr e).length = 0 := by rw [h]; rfl
  unfold jsonDecodeErrorStr at hl
  simp only [length_append_str] at hl
  have : (": line " : String).length = 7 := by rfl
  omega

theorem verify_result_ok_error_none {now : String} {f : ManifestFile} {o : Outcome}
    (h : verify_result now f = .ok o) : o.error = none := by
  unfold verify_result at h
  cases hp : f.parsed with
  | error e => rw [hp] at h; exact absurd h (by simp)
  | ok d =>
      rw [hp] at h
      simp only [Except.ok.injEq] at h
      rw [← h]

theorem verify_result_ok_of_parsed_ok {now : String} {f : ManifestFile} {d : Record}
    (h : f.parsed = .ok d) : (verify_result now f).isOk = true := by
  unfold verify_result
  rw [h]
  rfl

theorem batchGo_spec (now : String) (files : List ManifestFile) :
    ∀ acc st, batchGo now files acc st =
      (acc ++ files.map (file_outcome now),
       st ++ files.filterMap (fun f => (verify_result now f).toOption)) := by
  induction files with
  | nil => intro acc st; simp [batchGo]
  | cons f rest ih =>
      intro acc st
      have hstep : batchGo now (f :: rest) acc st =
          match verify_result now f with
          | .ok r => batchGo now rest (acc ++ [r]) (st ++ [r])
          | .error e =>
              batchGo now rest (acc ++ [error_result now f.path (jsonDecodeErrorStr e)]) st :=
        rfl
      rw [hstep]
      cases hv : verify_result now f with
      | ok r =>
          show batchGo now rest (acc ++ [r]) (st ++ [r]) =
            (acc ++ List.map (file_outcome now) (f :: rest),
             st ++ List.filterMap (fun g => (verify_result now g).toOption) (f :: rest))
          rw [ih]
          simp [file_outcome, hv, Except.toOption, List.append_assoc]
      | error e =>
          show batchGo now rest (acc ++ [error_result now f.path (jsonDecodeErrorStr e)]) st =
            (acc ++ List.map (file_outcome now) (f :: rest),
             st ++ List.filterMap (fun g => (verify_result now g).toOption) (f :: rest))
          rw [ih]
          simp [file_outcome, hv, Except.toOption, List.append_assoc]

theorem lookup_eq_none_iff {β : Type} (l : List (String × β)) (k : String) :
    l.lookup k = none ↔ ¬ k ∈ l.map Prod.fst := by
  induction l with
  | nil => simp [List.lookup]
  | cons p rest ih =>
      obtain ⟨a, b⟩ := p
      by_cases h : k = a
      · subst h
        simp [List.lookup]
      · have hb : (k == a) = false := beq_eq_false_iff_ne.mpr h
        simp [List.lookup, hb, ih, h]

theorem lookup_isSome_iff {β : Type} (l : List (String × β)) (k : String) :
    (l.lookup k).isSome = true ↔ k ∈ l.map Prod.fst := by
  constructor
  · intro h
    by_contra hk
    rw [(lookup_eq_none_iff l k).mpr hk] at h
    simp at h
  · intro hk
    cases ho : l.lookup k with
    | some v => rfl
    | none => exact absurd ((lookup_eq_none_iff l k).mp ho) (by simpa using hk)

theorem verify_result_error_iff {now : String} {f : ManifestFile} {e : ParseErr} :
    verify_result now f = .error e ↔ f.parsed = .error e := by
  unfold verify_result
  cases hp : f.parsed with
  | error e2 => simp
  | ok d => simp

theorem toOption_eq_some_iff {ε α : Type} {x : Except ε α} {a : α} :
    x.toOption = some a ↔ x = .ok a := by
  cases x <;> simp [Except.toOption]

theorem filterMap_length_of_no_parse_error (now : String) (files : List ManifestFile)
    (h : ∀ f ∈ files, ∀ e, f.parsed ≠ .error e) :
    (files.filterMap (fun f => (verify_result now f).toOption)).length = files.length := by
  induction files with
  | nil => rfl
  | cons f rest ih =>
      have hf : ∀ e, f.parsed ≠ .error e := h f (List.mem_cons_self f rest)
      cases hv : verify_result now f with
      | error e => exact absurd (verify_result_error_iff.mp hv) (hf e)
      | ok r =>
          have ih2 := ih (fun g hg e => h g (List.mem_cons_of_mem f hg) e)
          rw [List.filterMap_cons]
          simp only [hv, Except.toOption] at ih2 ⊢
          rw [List.length_cons, List.length_cons, ih2]

/-! ### C1 — batch verification accounts for every discovered file -/

/-- C1: for every directory, `batch_verify_manifests` returns exactly one
outcome per discovered manifest file — the returned list is the per-file
map, so a batch of N files yields N outcomes — and for every file whose
verification raises (a parse failure), the batch appends the synthesized
error outcome with identifier `"ERROR"`, severity `"ERROR"`, empty file
and content checksums, `valid = false`, and a non-empty error message. -/
theorem batch_accounts_for_every_file (now : String) (st : List Outcome)
    (files : List ManifestFile) :
    (batch_verify_manifests now st (some files)).1.length = files.length ∧
    (batch_verify_manifests now st (some files)).1 = files.map (file_outcome now) ∧
    (∀ f e, f.parsed = .error e →
      file_outcome now f = error_result now f.path (jsonDecodeErrorStr e) ∧
      (file_outcome now f).cve_id = .str "ERROR" ∧
      (file_outcome now f).severity = .str "ERROR" ∧
      (file_outcome now f).file_checksum = "" ∧
      (file_outcome now f).content_checksum = "" ∧
      (file_outcome now f).valid = false ∧
      (file_outcome now f).error = some (jsonDecodeErrorStr e) ∧
      jsonDecodeErrorStr e ≠ "") := by
  have hb := batchGo_spec now files [] st
  refine ⟨?_, ?_, ?_⟩
  · simp [batch_verify_manifests, hb]
  · simp [batch_verify_manifests, hb]
  · intro f e he
    have hfo : file_outcome now f = error_result now f.path (jsonDecodeErrorStr e) := by
      unfold file_outcome verify_result
      rw [he]
    refine ⟨hfo, ?_, ?_, ?_, ?_, ?_, ?_, jsonDecodeErrorStr_ne_empty e⟩ <;> rw [hfo] <;> rfl

/-- A concrete `json.JSONDecodeError`. -/
def sampleParseErr : ParseErr := { msg := "Expecting value", line := 1, col := 1, pos := 0 }

/-- A concrete unparseable manifest file. -/
def sampleBadFile : ManifestFile :=
  { path := "data/cve/broken.json"
  , bytes := strBytes "not json"
  , parsed := .error sampleParseErr }

/-- Witness for C1 at a one-file batch containing an unparseable file. -/
theorem batch_accounts_for_every_file_witness :
    sampleBadFile.parsed = .error sampleParseErr ∧
    (batch_verify_manifests "2026-01-01T00:00:00" [] (some [sampleBadFile])).1.length = 1 ∧
    (file_outcome "2026-01-01T00:00:00" sampleBadFile).valid = false := by
  refine ⟨rfl, ?_, ?_⟩
  · exact (batch_accounts_for_every_file "2026-01-01T00:00:00" [] [sampleBadFile]).1
  · exact ((batch_accounts_for_every_file "2026-01-01T00:00:00" [] [sampleBadFile]).2.2
      sampleBadFile sampleParseErr rfl).2.2.2.2.2.1

/-! ### C10 — internal `verification_results` grows by the successes only -/

/-- C10: after a batch, the internal `verification_results` list has
grown by exactly the outcomes of the manifests that parsed successfully
(it is never reset); synthesized error outcomes never reach it (every
internal outcome still has no `error` key); and the returned list
differs from the internal state whenever some file in the batch failed
to parse or the internal list was non-empty beforehand. -/
theorem internal_results_growth (now : String) (st : List Outcome)
    (files : List ManifestFile) (hst : ∀ o ∈ st, o.error = none) :
    (batch_verify_manifests now st (some files)).2
      = st ++ files.filterMap (fun f => (verify_result now f).toOption) ∧
    (∀ o ∈ (batch_verify_manifests now st (some files)).2, o.error = none) ∧
    (((∃ f ∈ files, ∃ e, f.parsed = .error e) ∨ st ≠ []) →
      (batch_verify_manifests now st (some files)).1
        ≠ (batch_verify_manifests now st (some files)).2) := by
  have hb := batchGo_spec now files [] st
  have hst2 : (batch_verify_manifests now st (some files)).2
      = st ++ files.filterMap (fun f => (verify_result now f).toOption) := by
    simp [batch_verify_manifests, hb]
  have hres : (batch_verify_manifests now st (some files)).1
      = files.map (file_outcome now) := by
    simp [batch_verify_manifests, hb]
  have hclean : ∀ o ∈ (batch_verify_manifests now st (some files)).2, o.error = none := by
    intro o ho
    rw [hst2] at ho
    rcases List.mem_append.mp ho with hol | hor
    · exact hst o hol
    · obtain ⟨f, _, hfo⟩ := List.mem_filterMap.mp hor
      exact verify_result_ok_error_none (toOption_eq_some_iff.mp hfo)
  refine ⟨hst2, hclean, ?_⟩
  intro hcond hEq
  by_cases hfail : ∃ f ∈ files, ∃ e, f.parsed = .error e
  · obtain ⟨f, hf, e, he⟩ := hfail
    have hfo : file_outcome now f = error_result now f.path (jsonDecodeErrorStr e) := by
      unfold file_outcome verify_result
      rw [he]
    have hmem : file_outcome now f ∈ (batch_verify_manifests now st (some files)).1 := by
      rw [hres]
      exact List.mem_map_of_mem (file_outcome now) hf
    rw [hEq] at hmem
    have := hclean _ hmem
    rw [hfo] at this
    simp [error_result] at this
  · have hne : st ≠ [] := hcond.resolve_left hfail
    have hlen : (files.filterMap (fun f => (verify_result now f).toOption)).length
        = files.length := by
      refine filterMap_length_of_no_parse_error now files ?_
      intro f hf e he
      exact hfail ⟨f, hf, e, he⟩
    have h1 : (batch_verify_manifests now st (some files)).1.length = files.length := by
      rw [hres]; simp
    have h2 : (batch_verify_manifests now st (some files)).2.length
        = st.length + files.length := by
      rw [hst2]; simp [hlen]
    have hpos : 0 < st.length := List.length_pos.mpr hne
    rw [hEq] at h1
    omega

/-- Witness for C10: a batch with one unparseable file, starting from an
empty internal list, returns a list different from the internal state. -/
theorem internal_results_growth_witness :
    (batch_verify_manifests "2026-01-01T00:00:00" [] (some [sampleBadFile])).1
      ≠ (batch_verify_manifests "2026-01-01T00:00:00" [] (some [sampleBadFile])).2 :=
  (internal_results_growth "2026-01-01T00:00:00" [] [sampleBadFile] (by simp)).2.2
    (Or.inl ⟨sampleBadFile, by simp, sampleParseErr, rfl⟩)

/-! ### C2 — missing-field classification -/

theorem verify_result_fields {now : String} {f : ManifestFile} {d : Record} {o : Outcome}
    (hp : f.parsed = .ok d) (hv : verify_result now f = .ok o) :
    o.missing_fields = required_fields.filter
        (fun field => !((d.map Prod.fst).contains field)) ∧
    o.valid = (o.missing_fields.length == 0) ∧
    o.severity = (d.lookup "severity").getD (.str "UNKNOWN") ∧
    o.content_checksum = sha256Hex (strBytes (dumpsSorted (.obj d))) := by
  unfold verify_result at hv
  rw [hp] at hv
  simp only [Except.ok.injEq] at hv
  subst hv
  exact ⟨rfl, rfl, rfl, rfl⟩

/-- C2: for a manifest that parses, `missing_fields` is exactly the set
of required fields (`cve_id`, `description`, `severity`,
`published_date`) absent from the record — membership-wise exact, and
ordered as a sublist of the fixed required-field vocabulary; a field
present with any value (an empty string included) is never missing;
`valid` is true iff `missing_fields` is empty; and the outcome of a
file that fails to parse has `valid = false`. -/
theorem missing_fields_exact_and_ordered (now : String) (f : ManifestFile)
    (d : Record) (o : Outcome) (hp : f.parsed = .ok d)
    (hv : verify_result now f = .ok o) :
    (∀ field, field ∈ o.missing_fields ↔
       (field ∈ required_fields ∧ ¬ field ∈ d.map Prod.fst)) ∧
    List.Sublist o.missing_fields required_fields ∧
    (∀ field v, (field, v) ∈ d → ¬ field ∈ o.missing_fields) ∧
    (o.valid = true ↔ o.missing_fields = []) ∧
    (∀ now2 p e, (error_result now2 p e).valid = false) := by
  obtain ⟨hmf, hval, -, -⟩ := verify_result_fields hp hv
  have hmem : ∀ field, field ∈ o.missing_fields ↔
      (field ∈ required_fields ∧ ¬ field ∈ d.map Prod.fst) := by
    intro field
    rw [hmf]
    simp [List.mem_filter, List.contains, List.elem_eq_mem]
  refine ⟨hmem, ?_, ?_, ?_, fun _ _ _ => rfl⟩
  · rw [hmf]
    exact List.filter_sublist required_fields
  · intro field v hfv hmem2
    exact ((hmem field).mp hmem2).2 (List.mem_map_of_mem Prod.fst hfv)
  · rw [hval]
    simp [List.length_eq_zero]

/-- A concrete parseable record missing `description` and
`published_date`; `severity` is present. -/
def sampleOkRecord : Record :=
  [("cve_id", .str "CVE-2024-0001"), ("severity", .str "HIGH")]

/-- A concrete parseable manifest file. -/
def sampleOkFile : ManifestFile :=
  { path := "data/cve/a.json"
  , bytes := strBytes "irrelevant"
  , parsed := .ok sampleOkRecord }

/-- Witness for C2 at a record missing two required fields. -/
theorem missing_fields_exact_and_ordered_witness :
    ("description" ∈ (file_outcome "T" sampleOkFile).missing_fields ↔
       ("description" ∈ required_fields ∧
        ¬ "description" ∈ sampleOkRecord.map Prod.fst)) ∧
    ((file_outcome "T" sampleOkFile).valid = true ↔
       (file_outcome "T" sampleOkFile).missing_fields = []) := by
  have h := missing_fields_exact_and_ordered "T" sampleOkFile sampleOkRecord
    (file_outcome "T" sampleOkFile) rfl rfl
  exact ⟨h.1 "description", h.2.2.2.1⟩

/-! ### C8 — severity handling -/

/-- The fixed severity vocabulary named by the specification. -/
def severity_vocabulary : List String := ["CRITICAL", "HIGH", "MEDIUM", "LOW"]

/-- A record whose severity value lies outside the fixed vocabulary. -/
def sampleOddSeverityRecord : Record :=
  [("cve_id", .str "CVE-2024-0002"), ("description", .str "demo"),
   ("severity", .str "INFORMATIONAL"), ("published_date", .str "2024-01-01")]

/-- A concrete manifest file carrying that record. -/
def sampleOddSeverityFile : ManifestFile :=
  { path := "data/cve/odd.json"
  , bytes := strBytes "y"
  , parsed := .ok sampleOddSeverityRecord }

/-- Counterexample to C8: a successfully parsed manifest supplies the
severity value `"INFORMATIONAL"`, which is outside the fixed vocabulary
CRITICAL/HIGH/MEDIUM/LOW, yet the outcome's severity is that value
verbatim — not the sentinel `"UNKNOWN"` the claim requires. -/
theorem severity_passthrough_counterexample :
    (file_outcome "T" sampleOddSeverityFile).severity = .str "INFORMATIONAL" ∧
    ¬ "INFORMATIONAL" ∈ severity_vocabulary ∧
    (file_outcome "T" sampleOddSeverityFile).severity ≠ .str "UNKNOWN" := by
  refine ⟨rfl, by decide, ?_⟩
  intro h
  rw [show (file_outcome "T" sampleOddSeverityFile).severity
      = .str "INFORMATIONAL" from rfl] at h
  simp at h

/-- C8 amended: the outcome's severity is the sentinel `"UNKNOWN"`
exactly when the `severity` field is absent from the parsed record; a
supplied value is passed through verbatim, whether or not it belongs to
the CRITICAL/HIGH/MEDIUM/LOW vocabulary. -/
theorem severity_amended (now : String) (f : ManifestFile) (d : Record) (o : Outcome)
    (hp : f.parsed = .ok d) (hv : verify_result now f = .ok o) :
    (¬ "severity" ∈ d.map Prod.fst → o.severity = .str "UNKNOWN") ∧
    (∀ v, d.lookup "severity" = some v → o.severity = v) := by
  have hsev := (verify_result_fields hp hv).2.2.1
  constructor
  · intro hnk
    rw [hsev, (lookup_eq_none_iff d "severity").mpr hnk]
    rfl
  · intro v hvv
    rw [hsev, hvv]
    rfl

/-- Witness for C8 at a record with a present severity value. -/
theorem severity_amended_witness :
    sampleOkRecord.lookup "severity" = some (.str "HIGH") ∧
    (file_outcome "T" sampleOkFile).severity = .str "HIGH" := by
  refine ⟨rfl, ?_⟩
  exact (severity_amended "T" sampleOkFile sampleOkRecord
    (file_outcome "T" sampleOkFile) rfl rfl).2 (.str "HIGH") rfl

instance {ε α : Type} [DecidableEq ε] [DecidableEq α] : DecidableEq (Except ε α) :=
  fun a b =>
    match a, b with
    | .ok x, .ok y =>
        if h : x = y then isTrue (by rw [h]) else isFalse (by simp [h])
    | .error x, .error y =>
        if h : x = y then isTrue (by rw [h]) else isFalse (by simp [h])
    | .ok _, .error _ => isFalse (by simp)
    | .error _, .ok _ => isFalse (by simp)

/-! ### C3 — success-rate agreement between renderers -/

/-- C3 (the defect, evaluated): the markdown renderer's success-rate
replacement field divides by `len(results)` unconditionally — the
`if results else 0` guard is literal template text — so an empty
outcome list raises `ZeroDivisionError` there, while the HTML renderer
reports 0; on every nonempty list both renderers compute the identical
`valid_count / total_count * 100` rate. -/
theorem markdown_success_rate_divides_unconditionally :
    generate_markdown_report [] = .error "ZeroDivisionError: division by zero" ∧
    (generate_html_report []).success_rate = 0 ∧
    (∀ results : List Outcome, results.length ≠ 0 →
      ∀ rep, generate_markdown_report results = .ok rep →
        rep.success_rate = (generate_html_report results).success_rate ∧
        rep.success_rate
          = ((results.filter (fun r => r.valid)).length : ℚ)
              / (results.length : ℚ) * 100) := by
  refine ⟨rfl, rfl, ?_⟩
  intro results hne rep hrep
  unfold generate_markdown_report at hrep
  rw [if_neg hne] at hrep
  simp only [Except.ok.injEq] at hrep
  subst hrep
  constructor
  · unfold generate_html_report
    simp [hne]
  · rfl

/-- A concrete ordinary (non-error) verification outcome. -/
def sampleOutcome : Outcome :=
  { manifest_file := "data/cve/a.json"
  , cve_id := .str "CVE-2024-0001"
  , severity := .str "HIGH"
  , file_checksum := "abc123"
  , content_checksum := "def456"
  , missing_fields := []
  , valid := true
  , error := none
  , timestamp := "2026-01-01T00:00:00"
  , lineage_id := LINEAGE_ID }

/-- The markdown report data for `[sampleOutcome]` (the success-rate
field is spelled as the renderer computes it: `1/1*100`). -/
def mdRepSample : MarkdownReport :=
  { total := 1
  , valid_count := 1
  , invalid_count := 0
  , success_rate :=
      ((List.filter (fun r => r.valid) [sampleOutcome]).length : ℚ)
        / (([sampleOutcome] : List Outcome).length : ℚ) * 100
  , rows := [report_row sampleOutcome] }

/-- Witness for C3 on a nonempty outcome list. -/
theorem markdown_success_rate_divides_unconditionally_witness :
    generate_markdown_report [sampleOutcome] = .ok mdRepSample ∧
    mdRepSample.success_rate = (generate_html_report [sampleOutcome]).success_rate := by
  have hrep : generate_markdown_report [sampleOutcome] = .ok mdRepSample := rfl
  exact ⟨hrep, (markdown_success_rate_divides_unconditionally.2.2 [sampleOutcome]
    (by decide) mdRepSample hrep).1⟩

/-! ### C6 — checksum service error behaviour -/

/-- Counterexample to C6: `"sha512"` lies outside the supported set
`[sha256, md5, sha1]`, yet `generate_file_checksum` on an existing
file succeeds with it — the file-digest path never validates the
algorithm against the supported set. -/
theorem file_checksum_algorithm_unchecked_counterexample :
    ¬ "sha512" ∈ SUPPORTED_HASH_ALGORITHMS ∧
    (generate_file_checksum [("data/cve/a.json", [123])]
        "data/cve/a.json" "sha512").isOk = true :=
  ⟨by decide, by decide⟩

/-- C6 amended: `generate_checksum` fails with the unsupported-algorithm
error for every algorithm outside the supported set; for every
nonexistent path `generate_file_checksum` fails with the file-not-found
error; but `generate_file_checksum` performs no supported-set check —
on an existing file an algorithm unknown to `hashlib` raises
`AttributeError`, and any `hashlib` algorithm (supported set or not)
succeeds. -/
theorem checksum_error_behavior_amended :
    (∀ data algorithm, ¬ algorithm ∈ SUPPORTED_HASH_ALGORITHMS →
       generate_checksum data algorithm = .error (.unsupportedAlgorithm algorithm)) ∧
    (∀ (fs : FileSystem) path algorithm, fs.lookup path = none →
       generate_file_checksum fs path algorithm = .error (.fileNotFound path)) ∧
    (∀ (fs : FileSystem) path bytes algorithm, fs.lookup path = some bytes →
       ¬ algorithm ∈ hashlib_algorithms →
       generate_file_checksum fs path algorithm = .error (.attributeError algorithm)) ∧
    (∀ (fs : FileSystem) path bytes algorithm, fs.lookup path = some bytes →
       algorithm ∈ hashlib_algorithms →
       generate_file_checksum fs path algorithm = .ok (algoDigest algorithm bytes)) := by
  refine ⟨?_, ?_, ?_, ?_⟩
  · intro data algorithm h
    unfold generate_checksum
    rw [if_neg h]
  · intro fs path algorithm h
    unfold generate_file_checksum
    rw [h]
  · intro fs path bytes algorithm h hn
    unfold generate_file_checksum
    rw [h]
    simp [hn]
  · intro fs path bytes algorithm h hm
    unfold generate_file_checksum
    rw [h]
    simp [hm]

/-- Witness for C6 as amended: a rejected in-memory algorithm and a
missing file. -/
theorem checksum_error_behavior_amended_witness :
    ¬ "sha999" ∈ SUPPORTED_HASH_ALGORITHMS ∧
    generate_checksum "abc" "sha999" = .error (.unsupportedAlgorithm "sha999") ∧
    generate_file_checksum [] "missing.json" "sha256"
      = .error (.fileNotFound "missing.json") := by
  refine ⟨by decide, ?_, ?_⟩
  · exact checksum_error_behavior_amended.1 "abc" "sha999" (by decide)
  · exact checksum_error_behavior_amended.2.1 [] "missing.json" "sha256" rfl

/-! ### C4 — renderers on mixed outcome lists -/

theorem write_rows_error_of_bad (fieldnames : List String) (l : List Outcome)
    (hbad : ∃ r ∈ l, ∃ k ∈ outcome_keys r, ¬ k ∈ fieldnames) :
    (write_rows fieldnames l).isOk = false := by
  induction l with
  | nil =>
      obtain ⟨r, hr, -⟩ := hbad
      cases hr
  | cons r rest ih =>
      obtain ⟨s, hs, k, hk, hknot⟩ := hbad
      unfold write_rows
      by_cases hall : ((outcome_keys r).all fun k2 => fieldnames.contains k2) = true
      · have hsrest : s ∈ rest := by
          rcases List.mem_cons.mp hs with hsr | hsr
          · subst hsr
            have hc := List.all_eq_true.mp hall k hk
            have hkmem : k ∈ fieldnames := by
              simpa [List.contains, List.elem_eq_mem] using hc
            exact absurd hkmem hknot
          · exact hsr
        have hrec := ih ⟨s, hsrest, k, hk, hknot⟩
        rw [if_pos hall]
        cases hw : write_rows fieldnames rest with
        | ok rows =>
            rw [hw] at hrec
            simp [Except.isOk, Except.toBool] at hrec
        | error e => rfl
      · rw [if_neg hall]
        rfl

/-- The synthesized error outcome the batch produces for the sample
unparseable file. -/
def sampleErrorOutcome : Outcome :=
  error_result "2026-01-01T00:00:00" "data/cve/broken.json"
    (jsonDecodeErrorStr sampleParseErr)

/-- Counterexample to C4 at the mixed list
`[sampleOutcome, sampleErrorOutcome]`: the CSV renderer raises (the
header comes from the first, normal outcome, and the error outcome's
extra `error` key makes `DictWriter` raise `ValueError`), and the error
outcome's reason is not in the issues cell — that cell reads `"None"`
while the error message is a different, non-`"None"` string. -/
theorem mixed_batch_render_counterexample :
    (generate_csv_report [sampleOutcome, sampleErrorOutcome]).isOk = false ∧
    issues_cell sampleErrorOutcome = "None" ∧
    sampleErrorOutcome.error = some "Expecting value: line 1 column 1 (char 0)" ∧
    "Expecting value: line 1 column 1 (char 0)" ≠ "None" := by
  refine ⟨by decide, by decide, by decide, by decide⟩

/-- C4 amended: on every nonempty outcome list the markdown and HTML
renderers produce the total/valid/invalid summary without raising (the
markdown renderer raises on an empty list), but the issues cell shows
only `missing_fields` — for any outcome with empty `missing_fields`
(every synthesized error outcome in particular) it reads `"None"`, so
the error reason is not displayed there; and the CSV renderer, whose
header is the first outcome's key set, raises whenever some outcome has
a key outside that header — as the `error` key of a synthesized error
outcome is, whenever the first outcome is a normal one. -/
theorem renderer_error_visibility_amended :
    (∀ results : List Outcome, results.length ≠ 0 →
      ∃ rep, generate_markdown_report results = .ok rep ∧
        rep.total = results.length ∧
        rep.valid_count = (results.filter (fun r => r.valid)).length ∧
        rep.invalid_count
          = results.length - (results.filter (fun r => r.valid)).length) ∧
    (∀ results : List Outcome,
      (generate_html_report results).total = results.length ∧
      (generate_html_report results).valid_count
        = (results.filter (fun r => r.valid)).length ∧
      (generate_html_report results).invalid_count
        = results.length - (results.filter (fun r => r.valid)).length) ∧
    (∀ r : Outcome, r.missing_fields = [] → issues_cell r = "None") ∧
    (∀ (first : Outcome) (rest : List Outcome),
      (∃ r ∈ first :: rest, ∃ k ∈ outcome_keys r, ¬ k ∈ outcome_keys first) →
      (generate_csv_report (first :: rest)).isOk = false) := by
  refine ⟨?_, ?_, ?_, ?_⟩
  · intro results hne
    have h : generate_markdown_report results = .ok
        { total := results.length
        , valid_count := (results.filter (fun r => r.valid)).length
        , invalid_count :=
            results.length - (results.filter (fun r => r.valid)).length
        , success_rate := ((results.filter (fun r => r.valid)).length : ℚ)
            / (results.length : ℚ) * 100
        , rows := results.map report_row } := by
      unfold generate_markdown_report
      rw [if_neg hne]
    exact ⟨_, h, rfl, rfl, rfl⟩
  · intro results
    exact ⟨rfl, rfl, rfl⟩
  · intro r h
    unfold issues_cell
    rw [h]
    rfl
  · intro first rest hbad
    exact write_rows_error_of_bad (outcome_keys first) (first :: rest) hbad

/-- Witness for C4 as amended, at the mixed sample list. -/
theorem renderer_error_visibility_amended_witness :
    issues_cell sampleErrorOutcome = "None" ∧
    (generate_html_report [sampleOutcome, sampleErrorOutcome]).total = 2 := by
  refine ⟨renderer_error_visibility_amended.2.2.1 sampleErrorOutcome rfl, ?_⟩
  exact (renderer_error_visibility_amended.2.1 [sampleOutcome, sampleErrorOutcome]).1

/-! ### C7 / C9 — dashboard structure -/

theorem mapExcept_ok_length {α β : Type} (g : α → Except String β) (l : List α)
    (ys : List β) (h : mapExcept g l = .ok ys) : ys.length = l.length := by
  induction l generalizing ys with
  | nil =>
      unfold mapExcept at h
      simp only [Except.ok.injEq] at h
      subst h
      rfl
  | cons x xs ih =>
      unfold mapExcept at h
      cases hg : g x with
      | error e =>
          rw [hg] at h
          exact absurd h (by simp)
      | ok y =>
          rw [hg] at h
          cases hr : mapExcept g xs with
          | error e =>
              rw [hr] at h
              exact absurd h (by simp)
          | ok zs =>
              rw [hr] at h
              simp only [Except.ok.injEq] at h
              subst h
              simp [ih zs hr]

/-- What a successful dashboard generation computes: aggregates over
the full input lists, detail rows capped to the first 50. -/
theorem generate_dashboard_html_ok {cve_data : List Record}
    {results : List Outcome} {d : Dashboard}
    (h : generate_dashboard_html cve_data results = .ok d) :
    d.total_cves = cve_data.length ∧
    d.total_verifications = results.length ∧
    d.valid_verifications = (results.filter (fun r => r.valid)).length ∧
    d.success_rate = (if results.length > 0 then
        ((results.filter (fun r => r.valid)).length : ℚ)
          / (results.length : ℚ) * 100
      else 0) ∧
    d.verification_rows.length = min 50 results.length ∧
    d.cve_rows.length = min 50 cve_data.length := by
  unfold generate_dashboard_html at h
  cases h1 : mapExcept
      (fun cve => severity_upper ((cve.lookup "severity").getD (.str "UNKNOWN")))
      cve_data with
  | error e =>
      rw [h1] at h
      exact absurd h (by simp [Bind.bind, Except.bind])
  | ok sevs =>
      rw [h1] at h
      cases h2 : mapExcept cve_row (cve_data.take 50) with
      | error e =>
          rw [h2] at h
          exact absurd h (by simp [Bind.bind, Except.bind])
      | ok rows =>
          rw [h2] at h
          simp only [Bind.bind, Except.bind, pure, Except.pure, Except.ok.injEq] at h
          subst h
          refine ⟨rfl, rfl, rfl, rfl, ?_, ?_⟩
          · simp [List.length_take]
          · have := mapExcept_ok_length cve_row (cve_data.take 50) rows h2
            simp only [List.length_take] at this
            exact this

/-- Counterexample to C7 at a 51-outcome list: the core markdown and
HTML report renderers render one detail row per outcome — 51 rows,
beyond the fixed bound of 50 the claim asserts for every renderer. -/
theorem core_renderers_uncapped_counterexample :
    ((generate_markdown_report (List.replicate 51 sampleOutcome)).toOption.map
        (fun rep => rep.rows.length)) = some 51 ∧
    (generate_html_report (List.replicate 51 sampleOutcome)).rows.length = 51 ∧
    50 < 51 := by
  refine ⟨?_, ?_, by decide⟩
  · rfl
  · rfl

/-- C7 amended: only the dashboard renderer caps detail rows at the
first 50 entries (while still aggregating over the full lists); the
core markdown and HTML report renderers render one detail row for
every outcome, uncapped, with their aggregates likewise over the full
list. -/
theorem row_cap_amended (results : List Outcome) (cve_data : List Record) :
    (∀ rep, generate_markdown_report results = .ok rep →
       rep.rows.length = results.length ∧ rep.total = results.length) ∧
    ((generate_html_report results).rows.length = results.length ∧
     (generate_html_report results).total = results.length) ∧
    (∀ d, generate_dashboard_html cve_data results = .ok d →
       d.verification_rows.length = min 50 results.length ∧
       d.cve_rows.length = min 50 cve_data.length ∧
       d.total_cves = cve_data.length ∧
       d.total_verifications = results.length ∧
       d.valid_verifications = (results.filter (fun r => r.valid)).length) := by
  refine ⟨?_, ⟨?_, rfl⟩, ?_⟩
  · intro rep h
    unfold generate_markdown_report at h
    split at h
    · exact absurd h (by simp)
    · simp only [Except.ok.injEq] at h
      subst h
      simp
  · simp [generate_html_report]
  · intro d hd
    obtain ⟨h1, h2, h3, -, h5, h6⟩ := generate_dashboard_html_ok hd
    exact ⟨h5, h6, h1, h2, h3⟩

/-- The dashboard for empty inputs. -/
def dashEmpty : Dashboard :=
  { total_cves := 0
  , total_verifications := 0
  , valid_verifications := 0
  , severity_counts := []
  , success_rate := 0
  , cve_rows := []
  , verification_rows := [] }

/-- Witness for C7 at concrete inputs. -/
theorem row_cap_amended_witness :
    generate_dashboard_html [] [] = .ok dashEmpty ∧
    dashEmpty.verification_rows.length = 0 ∧
    (generate_html_report (List.replicate 51 sampleOutcome)).rows.length = 51 := by
  have hd : generate_dashboard_html [] [] = .ok dashEmpty := rfl
  exact ⟨hd, ((row_cap_amended [] []).2.2 dashEmpty hd).1,
    (row_cap_amended (List.replicate 51 sampleOutcome) []).2.1.1⟩

/-! ### C9 — dashboard validity aggregation -/

/-- A concrete empty-record manifest file (all required fields
missing). -/
def sampleEmptyRecordFile : ManifestFile :=
  { path := "data/cve/empty.json"
  , bytes := strBytes "\x7b\x7d"
  , parsed := .ok [] }

/-- Counterexample to C9: the dashboard pipeline
`process_and_generate_dashboard` does not aggregate verifier-produced
valid flags — it fabricates `valid = True` for every loaded record.
For the empty record, which the verifier classifies invalid (all four
required fields missing), the pipeline's simulated outcome is valid and
the dashboard displays 1 valid verification out of 1. -/
theorem dashboard_simulated_validity_counterexample :
    (simulated_result "T" []).valid = true ∧
    ((verify_result "T" sampleEmptyRecordFile).toOption.map (fun o => o.valid))
      = some false ∧
    ((process_and_generate_dashboard "T" [.ok []]).toOption.map
        (fun d => d.valid_verifications)) = some 1 := by
  refine ⟨rfl, rfl, rfl⟩

/-- C9 amended: the dashboard rendering function
`generate_dashboard_html` only aggregates the `valid` flags in the
outcome list it is given — its displayed total, valid count and success
rate equal those derived from the input outcomes' flags (no separate
invalid count is displayed) — but `process_and_generate_dashboard`
does not feed it verifier outcomes: every simulated outcome it builds
carries `valid = True`, overriding validity. -/
theorem dashboard_aggregation_amended (cve_data : List Record)
    (results : List Outcome) :
    (∀ d, generate_dashboard_html cve_data results = .ok d →
       d.valid_verifications = (results.filter (fun r => r.valid)).length ∧
       d.total_verifications = results.length ∧
       d.success_rate = (if results.length > 0 then
           ((results.filter (fun r => r.valid)).length : ℚ)
             / (results.length : ℚ) * 100
         else 0)) ∧
    (∀ now o, o ∈ cve_data.map (simulated_result now) → o.valid = true) := by
  constructor
  · intro d hd
    obtain ⟨-, h2, h3, h4, -, -⟩ := generate_dashboard_html_ok hd
    exact ⟨h3, h2, h4⟩
  · intro now o ho
    obtain ⟨cve, -, hco⟩ := List.mem_map.mp ho
    rw [← hco]
    rfl

/-- Witness for C9 at empty inputs. -/
theorem dashboard_aggregation_amended_witness :
    generate_dashboard_html [] [] = .ok dashEmpty ∧
    dashEmpty.valid_verifications = 0 ∧
    dashEmpty.success_rate = 0 := by
  have hd : generate_dashboard_html [] [] = .ok dashEmpty := rfl
  have h := (dashboard_aggregation_amended [] []).1 dashEmpty hd
  exact ⟨hd, h.1, h.2.2⟩

/-! ### C5 — content digest is invariant under key reordering -/

theorem canonPairs_eq_map (l : List (String × JsonVal)) :
    canonPairs l = l.map (fun p => (p.1, canon p.2)) := by
  induction l with
  | nil => rfl
  | cons p rest ih =>
      cases p
      simp [canonPairs, ih]

theorem keys_canonPairs (l : List (String × JsonVal)) :
    (canonPairs l).map Prod.fst = l.map Prod.fst := by
  rw [canonPairs_eq_map]
  simp

theorem lookup_canonPairs (l : List (String × JsonVal)) (k : String) :
    (canonPairs l).lookup k = (l.lookup k).map canon := by
  induction l with
  | nil => rfl
  | cons p rest ih =>
      obtain ⟨a, v⟩ := p
      by_cases h : k = a
      · subst h
        simp [canonPairs, List.lookup]
      · have hb : (k == a) = false := beq_eq_false_iff_ne.mpr h
        simp [canonPairs, List.lookup, hb, ih]

theorem sorted_items_congr (d1 d2 : List (String × JsonVal))
    (nd1 : (d1.map Prod.fst).Nodup) (nd2 : (d2.map Prod.fst).Nodup)
    (hlk : ∀ k, d1.lookup k = d2.lookup k) :
    sorted_items d1 = sorted_items d2 := by
  have hmemkeys : ∀ k, k ∈ d1.map Prod.fst ↔ k ∈ d2.map Prod.fst := by
    intro k
    rw [← lookup_isSome_iff, ← lookup_isSome_iff, hlk k]
  have hperm : (d1.map Prod.fst).Perm (d2.map Prod.fst) :=
    (List.perm_ext_iff_of_nodup nd1 nd2).mpr hmemkeys
  have hsorteq : (d1.map Prod.fst).insertionSort (· ≤ ·)
      = (d2.map Prod.fst).insertionSort (· ≤ ·) := by
    refine @List.eq_of_perm_of_sorted String (· ≤ ·) ?_ _ _ ?_ ?_ ?_
    · infer_instance
    · exact (List.perm_insertionSort _ _).trans
        (hperm.trans (List.perm_insertionSort _ _).symm)
    · exact List.sorted_insertionSort _ _
    · exact List.sorted_insertionSort _ _
  unfold sorted_items
  rw [hsorteq]
  have hfun : (fun k => (k, (d1.lookup k).getD JsonVal.null))
      = (fun k => (k, (d2.lookup k).getD JsonVal.null)) := by
    funext k
    rw [hlk k]
  rw [hfun]

/-- C5: two manifest files whose parsed records are equal as key-value
maps (same lookup on every key; keys unique as in any Python dict)
receive the same content checksum from single-file verification — the
content digest is computed over the key-order-canonicalized
serialization of the record. -/
theorem content_checksum_key_order_invariant
    (now1 now2 : String) (f1 f2 : ManifestFile) (d1 d2 : Record)
    (h1 : f1.parsed = .ok d1) (h2 : f2.parsed = .ok d2)
    (nd1 : (d1.map Prod.fst).Nodup) (nd2 : (d2.map Prod.fst).Nodup)
    (hlk : ∀ k, d1.lookup k = d2.lookup k) :
    (verify_result now1 f1).toOption.map (fun o => o.content_checksum)
      = (verify_result now2 f2).toOption.map (fun o => o.content_checksum) := by
  have hcanon : canon (.obj d1) = canon (.obj d2) := by
    show JsonVal.obj (sorted_items (canonPairs d1))
        = JsonVal.obj (sorted_items (canonPairs d2))
    congr 1
    apply sorted_items_congr
    · rw [keys_canonPairs]
      exact nd1
    · rw [keys_canonPairs]
      exact nd2
    · intro k
      rw [lookup_canonPairs, lookup_canonPairs, hlk k]
  cases hv1 : verify_result now1 f1 with
  | error e =>
      have := verify_result_error_iff.mp hv1
      rw [h1] at this
      exact absurd this (by simp)
  | ok o1 =>
      cases hv2 : verify_result now2 f2 with
      | error e =>
          have := verify_result_error_iff.mp hv2
          rw [h2] at this
          exact absurd this (by simp)
      | ok o2 =>
          have hc1 := (verify_result_fields h1 hv1).2.2.2
          have hc2 := (verify_result_fields h2 hv2).2.2.2
          show some o1.content_checksum = some o2.content_checksum
          rw [hc1, hc2]
          unfold dumpsSorted
          rw [hcanon]

/-- The record of the spec example, keys in ascending order. -/
def recAB : Record := [("a", .num 1), ("b", .num 2)]

/-- The same map serialized with the other key order. -/
def recBA : Record := [("b", .num 2), ("a", .num 1)]

/-- A file holding the ascending-order serialization. -/
def fileAB : ManifestFile :=
  { path := "data/cve/ab.json"
  , bytes := strBytes "\x7b\x22a\x22: 1, \x22b\x22: 2\x7d"
  , parsed := .ok recAB }

/-- A file holding the reversed-order serialization. -/
def fileBA : ManifestFile :=
  { path := "data/cve/ba.json"
  , bytes := strBytes "\x7b\x22b\x22: 2, \x22a\x22: 1\x7d"
  , parsed := .ok recBA }

/-- Witness for C5 at the spec's example records. -/
theorem content_checksum_key_order_invariant_witness :
    (recAB.map Prod.fst).Nodup ∧
    ((verify_result "T" fileAB).toOption.map (fun o => o.content_checksum)
      = (verify_result "T" fileBA).toOption.map (fun o => o.content_checksum)) := by
  refine ⟨by decide, ?_⟩
  apply content_checksum_key_order_invariant "T" "T" fileAB fileBA recAB recBA
    rfl rfl (by decide) (by decide)
  intro k
  by_cases ha : k = "a"
  · subst ha
    rfl
  · by_cases hb : k = "b"
    · subst hb
      rfl
    · have hna : ¬ k ∈ recAB.map Prod.fst := by simp [recAB, ha, hb]
      have hnb : ¬ k ∈ recBA.map Prod.fst := by simp [recBA, ha, hb]
      rw [(lookup_eq_none_iff recAB k).mpr hna, (lookup_eq_none_iff recBA k).mpr hnb]

end EchoForge
